import Mathlib

/-!
Shallow embedding of the workout CRUD service
(`workout_api/WORKOUT_API_CADUDISNER.py`).

The service is a FastAPI application backed by a single SQLAlchemy table
`workouts` with columns `id` (auto-increment integer primary key),
`title`, `load`, `reps`.  We model the table as a list of rows together
with the auto-increment counter, and each route handler as a pure
function from its inputs and the store to a response and the new store.
-/

namespace WorkoutApi

/-- `models.Workout`: a persisted row of the `workouts` table
(`id` primary key, `title`, `load`, `reps`). -/
structure Workout where
  id    : Nat
  title : String
  load  : Int
  reps  : Int
deriving DecidableEq, Repr

/-- `schemas.WorkoutBase`: the validated `{title, load, reps}` payload
shared by `WorkoutCreate` and `WorkoutUpdate`. -/
structure WorkoutBase where
  title : String
  load  : Int
  reps  : Int
deriving DecidableEq, Repr

/-- `schemas.WorkoutCreate` (inherits `WorkoutBase` unchanged). -/
abbrev WorkoutCreate := WorkoutBase

/-- `schemas.WorkoutUpdate` (inherits `WorkoutBase` unchanged). -/
abbrev WorkoutUpdate := WorkoutBase

/-- `schemas.WorkoutOut`: the response shape `{id, title, load, reps}`,
built from a storage row via `orm_mode`. -/
structure WorkoutOut where
  id    : Nat
  title : String
  load  : Int
  reps  : Int
deriving DecidableEq, Repr

/-- Serialization of a row through `response_model=WorkoutOut`. -/
def Workout.toOut (w : Workout) : WorkoutOut :=
  ⟨w.id, w.title, w.load, w.reps⟩

/-- `fastapi.HTTPException` carrying a status code and a detail string. -/
structure HTTPException where
  status_code : Nat
  detail      : String
deriving DecidableEq, Repr

/-- The backing store: the rows of the `workouts` table plus the value
the auto-increment primary-key generator will hand out next. -/
structure Store where
  rows   : List Workout
  nextId : Nat
deriving DecidableEq, Repr

/-- A freshly created database (`Base.metadata.create_all`). -/
def Store.empty : Store := ⟨[], 1⟩

/-- `db.query(models.Workout).get(workout_id)`: primary-key lookup,
`None` when no row carries that id. -/
def Store.get (s : Store) (i : Nat) : Option Workout :=
  s.rows.find? (fun r => r.id == i)

/-- `setattr(workout, key, value)` for each key of `update.dict()`
(`title`, `load`, `reps`; `id` is not a payload field). -/
def Workout.applyUpdate (w : Workout) (u : WorkoutUpdate) : Workout :=
  { w with title := u.title, load := u.load, reps := u.reps }

/-- `POST /workouts/` (`create_workout`): build a `Workout` from the
payload, `add`/`commit` it (the primary-key generator assigns the id),
`refresh`, and answer 201 with the row serialized as `WorkoutOut`. -/
def create_workout (workout : WorkoutCreate) (s : Store) :
    (Nat × WorkoutOut) × Store :=
  let db_workout : Workout := ⟨s.nextId, workout.title, workout.load, workout.reps⟩
  ((201, db_workout.toOut), ⟨s.rows ++ [db_workout], s.nextId + 1⟩)

/-- `GET /workouts/` (`get_workouts`): return every row, serialized,
in storage order, with status 200. -/
def get_workouts (s : Store) : Nat × List WorkoutOut :=
  (200, s.rows.map Workout.toOut)

/-- `GET /workouts/{workout_id}` (`get_workout`): primary-key lookup;
404 `"Workout not found"` when absent, else 200 with the row. -/
def get_workout (workout_id : Nat) (s : Store) :
    Except HTTPException (Nat × WorkoutOut) :=
  match s.get workout_id with
  | none => .error ⟨404, "Workout not found"⟩
  | some workout => .ok (200, workout.toOut)

/-- `PUT /workouts/{workout_id}` (`update_workout`): look the row up;
404 when absent; otherwise overwrite `title`, `load`, `reps` with the
payload values, `commit` (an UPDATE keyed on the primary key), and
answer 200 with the updated row. -/
def update_workout (workout_id : Nat) (update : WorkoutUpdate) (s : Store) :
    Except HTTPException (Nat × WorkoutOut) × Store :=
  match s.get workout_id with
  | none => (.error ⟨404, "Workout not found"⟩, s)
  | some workout =>
      let workout' := workout.applyUpdate update
      (.ok (200, workout'.toOut),
       ⟨s.rows.map (fun r => if r.id = workout_id then workout' else r), s.nextId⟩)

/-- `DELETE /workouts/{workout_id}` (`delete_workout`): look the row up;
404 when absent; otherwise delete it (a DELETE keyed on the primary
key) and answer an empty 204. -/
def delete_workout (workout_id : Nat) (s : Store) :
    Except HTTPException Nat × Store :=
  match s.get workout_id with
  | none => (.error ⟨404, "Workout not found"⟩, s)
  | some _ => (.ok 204, ⟨s.rows.filter (fun r => r.id ≠ workout_id), s.nextId⟩)

/-- Well-formedness of the store, maintained by the auto-increment
primary key: every row id is positive and below the counter, and ids
are pairwise distinct. -/
structure Store.WF (s : Store) : Prop where
  pos      : ∀ w ∈ s.rows, 0 < w.id
  lt_next  : ∀ w ∈ s.rows, w.id < s.nextId
  nodup    : s.rows.Pairwise (fun a b => a.id ≠ b.id)
  one_le   : 1 ≤ s.nextId

/-! ## Request bodies and pydantic validation -/

/-- A JSON value as it arrives in a request body (the fragment the
schemas can mention). -/
inductive JValue where
  | str  (s : String)
  | int  (n : Int)
  | null
deriving DecidableEq, Repr

/-- A request body: a JSON object, i.e. fields with JSON values. -/
abbrev Body := List (String × JValue)

/-- pydantic deserialization of an `int` field: an integer, or a string
spelling an integer (lax coercion); anything else is a type mismatch. -/
def coerceInt : JValue → Option Int
  | .int n => some n
  | .str s => s.toInt?
  | .null  => none

/-- pydantic deserialization of a `str` field. -/
def coerceStr : JValue → Option String
  | .str s => some s
  | _      => none

/-- A field-level validation failure: which field, and whether it was
missing or of the wrong type. -/
inductive FieldError where
  | missing (field : String)
  | typeMismatch (field : String)
deriving DecidableEq, Repr

/-- Validate one field of the body. -/
def parseField (α : Type) (coe : JValue → Option α) (body : Body)
    (field : String) : Except FieldError α :=
  match body.lookup field with
  | none => .error (.missing field)
  | some v =>
      match coe v with
      | none => .error (.typeMismatch field)
      | some a => .ok a

/-- pydantic validation of a `WorkoutBase` body (`title : str`,
`load : int`, `reps : int`); fails on the first missing or
type-mismatched field. -/
def parseWorkoutBase (body : Body) : Except FieldError WorkoutBase := do
  let title ← parseField String coerceStr body "title"
  let load ← parseField Int coerceInt body "load"
  let reps ← parseField Int coerceInt body "reps"
  pure ⟨title, load, reps⟩

/-- Either error a route can produce: a 422 validation failure raised
by FastAPI before the handler body runs, or an `HTTPException`. -/
inductive ApiError where
  | validation (e : FieldError)
  | http (e : HTTPException)
deriving DecidableEq, Repr

/-- `POST /workouts/` from the raw body: FastAPI validates the body
into a `WorkoutCreate` before the handler runs; on failure the request
is rejected and the store is untouched. -/
def create_workout_raw (body : Body) (s : Store) :
    Except ApiError (Nat × WorkoutOut) × Store :=
  match parseWorkoutBase body with
  | .error e => (.error (.validation e), s)
  | .ok w =>
      let (resp, s') := create_workout w s
      (.ok resp, s')

/-- `PUT /workouts/{workout_id}` from the raw body: validation first,
then the handler. -/
def update_workout_raw (workout_id : Nat) (body : Body) (s : Store) :
    Except ApiError (Nat × WorkoutOut) × Store :=
  match parseWorkoutBase body with
  | .error e => (.error (.validation e), s)
  | .ok u =>
      match update_workout workout_id u s with
      | (.error e, s') => (.error (.http e), s')
      | (.ok resp, s') => (.ok resp, s')

/-! ## Helper lemmas -/

/-- The fresh database is well formed. -/
lemma wf_empty : Store.WF Store.empty := by
  constructor <;> simp [Store.empty]

/-- `applyUpdate` keeps the primary key. -/
@[simp] lemma Workout.applyUpdate_id (w : Workout) (u : WorkoutUpdate) :
    (w.applyUpdate u).id = w.id := rfl

@[simp] lemma Workout.toOut_id (w : Workout) : w.toOut.id = w.id := rfl

/-- A found row satisfies the lookup predicate: its id is the key. -/
lemma Store.get_id (s : Store) (i : Nat) (w : Workout) (h : s.get i = some w) :
    w.id = i := by
  have := List.find?_some h
  simpa using this

/-- The found row is a stored row. -/
lemma Store.get_mem (s : Store) (i : Nat) (w : Workout) (h : s.get i = some w) :
    w ∈ s.rows := List.mem_of_find?_eq_some h

/-- In a well-formed store no row carries the not-yet-assigned id. -/
lemma find?_next_none (s : Store) (h : s.WF) :
    s.rows.find? (fun r => r.id == s.nextId) = none := by
  rw [List.find?_eq_none]
  intro w hw
  simpa using Nat.ne_of_lt (h.lt_next w hw)

/-- `find?` commutes with a map that preserves the predicate. -/
lemma find?_map_pres (l : List Workout) (f : Workout → Workout)
    (p : Workout → Bool) (hp : ∀ r, p (f r) = p r) :
    (l.map f).find? p = (l.find? p).map f := by
  induction l with
  | nil => rfl
  | cons a t ih =>
      by_cases ha : p a = true
      · rw [List.map_cons, List.find?_cons_of_pos _ (by rw [hp]; exact ha),
          List.find?_cons_of_pos _ ha]
        rfl
      · rw [List.map_cons,
          List.find?_cons_of_neg _ (by rw [hp]; simpa using ha),
          List.find?_cons_of_neg _ (by simpa using ha), ih]

/-- After filtering out the rows with a given id, lookup of that id fails. -/
lemma find?_filter_ne (l : List Workout) (i : Nat) :
    (l.filter (fun r => r.id ≠ i)).find? (fun r => r.id == i) = none := by
  rw [List.find?_eq_none]
  intro w hw
  have := (List.mem_filter.mp hw).2
  simpa using this

/-- Primary-key lookup in the store produced by `update_workout` keyed on
the same id returns the overwritten row. -/
lemma get_after_update (s : Store) (i : Nat) (u : WorkoutUpdate) (w : Workout)
    (h : s.get i = some w) :
    ((update_workout i u s).2).get i = some (w.applyUpdate u) := by
  have hid : w.id = i := Store.get_id s i w h
  unfold update_workout
  rw [show s.get i = some w from h]
  unfold Store.get
  simp only
  rw [find?_map_pres _ _ _ (fun r => by
    by_cases hr : r.id = i
    · simp [hr, hid]
    · simp [hr])]
  rw [show s.rows.find? (fun r => r.id == i) = some w from h]
  simp [hid]

/-! ## Claims -/

/-- C1: creating from a valid payload answers 201 with a positive
server-generated id and the three submitted fields unchanged, and
persists a row carrying exactly those values. -/
theorem create_workout_correct (w : WorkoutCreate) (s : Store) (h : s.WF) :
    ((create_workout w s).1).1 = 201 ∧
    0 < ((create_workout w s).1).2.id ∧
    ((create_workout w s).1).2.title = w.title ∧
    ((create_workout w s).1).2.load = w.load ∧
    ((create_workout w s).1).2.reps = w.reps ∧
    (Workout.mk ((create_workout w s).1).2.id w.title w.load w.reps)
      ∈ ((create_workout w s).2).rows := by
  refine ⟨rfl, ?_, rfl, rfl, rfl, ?_⟩
  · exact Nat.lt_of_lt_of_le Nat.zero_lt_one h.one_le
  · simp [create_workout, Workout.toOut]

/-- Witness for C1 at the spec's example payload on the fresh store. -/
theorem create_workout_correct_witness :
    ((create_workout ⟨"Bench", 80, 5⟩ Store.empty).1).1 = 201 ∧
    0 < ((create_workout ⟨"Bench", 80, 5⟩ Store.empty).1).2.id ∧
    ((create_workout ⟨"Bench", 80, 5⟩ Store.empty).1).2.title = "Bench" ∧
    ((create_workout ⟨"Bench", 80, 5⟩ Store.empty).1).2.load = 80 ∧
    ((create_workout ⟨"Bench", 80, 5⟩ Store.empty).1).2.reps = 5 ∧
    (Workout.mk ((create_workout ⟨"Bench", 80, 5⟩ Store.empty).1).2.id "Bench" 80 5)
      ∈ ((create_workout ⟨"Bench", 80, 5⟩ Store.empty).2).rows :=
  create_workout_correct ⟨"Bench", 80, 5⟩ Store.empty wf_empty

/-- C2: getting the id just returned by create (with no intervening
mutation) answers 200 with the same four fields as the create
response. -/
theorem create_then_get (w : WorkoutCreate) (s : Store) (h : s.WF) :
    get_workout ((create_workout w s).1).2.id ((create_workout w s).2) =
      .ok (200, ((create_workout w s).1).2) := by
  unfold get_workout Store.get create_workout
  simp only [Workout.toOut]
  rw [List.find?_append, find?_next_none s h]
  simp [List.find?]

/-- Witness for C2 on the fresh store. -/
theorem create_then_get_witness :
    get_workout ((create_workout ⟨"Bench", 80, 5⟩ Store.empty).1).2.id
        ((create_workout ⟨"Bench", 80, 5⟩ Store.empty).2) =
      .ok (200, ((create_workout ⟨"Bench", 80, 5⟩ Store.empty).1).2) :=
  create_then_get ⟨"Bench", 80, 5⟩ Store.empty wf_empty

/-- A one-row store used to instantiate theorems at concrete inputs. -/
def sampleStore : Store := ⟨[⟨1, "Bench", 80, 5⟩], 2⟩

/-- C3: get-one, update and delete on an id with no stored record all
fail with the 404 `HTTPException` whose detail is exactly
`"Workout not found"`, and all succeed when a record with that id
exists. -/
theorem notfound_404 (i : Nat) (s : Store) (u : WorkoutUpdate) :
    (s.get i = none →
       get_workout i s = .error ⟨404, "Workout not found"⟩ ∧
       (update_workout i u s).1 = .error ⟨404, "Workout not found"⟩ ∧
       (delete_workout i s).1 = .error ⟨404, "Workout not found"⟩) ∧
    (∀ w, s.get i = some w →
       get_workout i s = .ok (200, w.toOut) ∧
       (update_workout i u s).1 = .ok (200, (w.applyUpdate u).toOut) ∧
       (delete_workout i s).1 = .ok 204) := by
  constructor
  · intro h
    refine ⟨?_, ?_, ?_⟩ <;> simp [get_workout, update_workout, delete_workout, h]
  · intro w h
    refine ⟨?_, ?_, ?_⟩ <;> simp [get_workout, update_workout, delete_workout, h]

/-- Witness for C3: the spec's example id 999999 on the fresh store,
and id 1 on a one-row store. -/
theorem notfound_404_witness :
    (get_workout 999999 Store.empty = .error ⟨404, "Workout not found"⟩ ∧
     (update_workout 999999 ⟨"Squat", 100, 8⟩ Store.empty).1 =
       .error ⟨404, "Workout not found"⟩ ∧
     (delete_workout 999999 Store.empty).1 = .error ⟨404, "Workout not found"⟩) ∧
    (get_workout 1 sampleStore = .ok (200, (⟨1, "Bench", 80, 5⟩ : Workout).toOut) ∧
     (update_workout 1 ⟨"Squat", 100, 8⟩ sampleStore).1 =
       .ok (200, ((⟨1, "Bench", 80, 5⟩ : Workout).applyUpdate ⟨"Squat", 100, 8⟩).toOut) ∧
     (delete_workout 1 sampleStore).1 = .ok 204) :=
  ⟨(notfound_404 999999 Store.empty ⟨"Squat", 100, 8⟩).1 rfl,
   (notfound_404 1 sampleStore ⟨"Squat", 100, 8⟩).2 ⟨1, "Bench", 80, 5⟩ rfl⟩

/-- C4: updating an existing id answers 200 with the record's title,
load and reps overwritten wholesale by the payload values (no merge
with the prior values), and a subsequent get-one returns exactly the
new values. -/
theorem update_overwrites (i : Nat) (u : WorkoutUpdate) (s : Store) (w : Workout)
    (h : s.get i = some w) :
    (update_workout i u s).1 = .ok (200, ⟨i, u.title, u.load, u.reps⟩) ∧
    get_workout i ((update_workout i u s).2) =
      .ok (200, ⟨i, u.title, u.load, u.reps⟩) := by
  have hid : w.id = i := Store.get_id s i w h
  constructor
  · simp [update_workout, h, Workout.toOut, Workout.applyUpdate, hid]
  · rw [get_workout, get_after_update s i u w h]
    simp [Workout.toOut, Workout.applyUpdate, hid]

/-- Witness for C4 at the spec's example payload on a one-row store. -/
theorem update_overwrites_witness :
    (update_workout 1 ⟨"Squat", 100, 8⟩ sampleStore).1 =
      .ok (200, ⟨1, "Squat", 100, 8⟩) ∧
    get_workout 1 ((update_workout 1 ⟨"Squat", 100, 8⟩ sampleStore).2) =
      .ok (200, ⟨1, "Squat", 100, 8⟩) :=
  update_overwrites 1 ⟨"Squat", 100, 8⟩ sampleStore ⟨1, "Bench", 80, 5⟩ rfl

/-- C5: deleting an existing id answers an empty 204, removes the
record from storage, and a subsequent get-one on that id returns
404. -/
theorem delete_removes (i : Nat) (s : Store) (w : Workout) (h : s.get i = some w) :
    (delete_workout i s).1 = .ok 204 ∧
    ((delete_workout i s).2).get i = none ∧
    get_workout i ((delete_workout i s).2) = .error ⟨404, "Workout not found"⟩ := by
  have h2 : ((delete_workout i s).2).get i = none := by
    have h' : s.rows.find? (fun r => r.id == i) = some w := h
    simp only [delete_workout, Store.get, h']
    exact find?_filter_ne s.rows i
  refine ⟨by simp [delete_workout, h], h2, ?_⟩
  rw [get_workout, h2]

/-- Witness for C5 on a one-row store. -/
theorem delete_removes_witness :
    (delete_workout 1 sampleStore).1 = .ok 204 ∧
    ((delete_workout 1 sampleStore).2).get 1 = none ∧
    get_workout 1 ((delete_workout 1 sampleStore).2) =
      .error ⟨404, "Workout not found"⟩ :=
  delete_removes 1 sampleStore ⟨1, "Bench", 80, 5⟩ rfl

/-- C6: list never fails (it is total), returns `(200, [])` on the
empty store rather than an error, returns exactly the stored rows
serialized in storage order, and after creating two records both of
their create responses appear in the listing, which has length at
least 2. -/
theorem get_workouts_spec (s : Store) (r1 r2 : WorkoutCreate) :
    get_workouts Store.empty = (200, []) ∧
    (get_workouts s).1 = 200 ∧
    (get_workouts s).2 = s.rows.map Workout.toOut ∧
    ((create_workout r1 s).1).2 ∈
      (get_workouts ((create_workout r2 ((create_workout r1 s).2)).2)).2 ∧
    ((create_workout r2 ((create_workout r1 s).2)).1).2 ∈
      (get_workouts ((create_workout r2 ((create_workout r1 s).2)).2)).2 ∧
    2 ≤ (get_workouts ((create_workout r2 ((create_workout r1 s).2)).2)).2.length := by
  refine ⟨rfl, rfl, rfl, ?_, ?_, ?_⟩
  · simp [get_workouts, create_workout]
  · simp [get_workouts, create_workout]
  · simp [get_workouts, create_workout]

/-- A store with the same row ids (in order) and the same counter as a
well-formed store is well formed. -/
lemma wf_of_map_id_eq (s s' : Store) (h : s.WF) (hn : s'.nextId = s.nextId)
    (hids : s'.rows.map Workout.id = s.rows.map Workout.id) : s'.WF := by
  have hmem : ∀ r' ∈ s'.rows, ∃ r ∈ s.rows, r.id = r'.id := by
    intro r' hr'
    have : r'.id ∈ s.rows.map Workout.id := by
      rw [← hids]; exact List.mem_map_of_mem _ hr'
    rcases List.mem_map.mp this with ⟨r, hr, hid⟩
    exact ⟨r, hr, hid⟩
  constructor
  · intro r' hr'
    rcases hmem r' hr' with ⟨r, hr, hid⟩
    exact hid ▸ h.pos r hr
  · intro r' hr'
    rcases hmem r' hr' with ⟨r, hr, hid⟩
    rw [hn, ← hid]
    exact h.lt_next r hr
  · have hpw : (s'.rows.map Workout.id).Pairwise (· ≠ ·) := by
      rw [hids]
      exact (List.pairwise_map).mpr h.nodup
    exact (List.pairwise_map).mp hpw
  · rw [hn]; exact h.one_le

/-- Update keyed on an id rewrites only fields other than the primary
key: the list of stored ids is unchanged. -/
lemma update_rows_map_id (i : Nat) (u : WorkoutUpdate) (s : Store) :
    ((update_workout i u s).2).rows.map Workout.id = s.rows.map Workout.id := by
  cases hg : s.get i with
  | none => simp [update_workout, hg]
  | some w =>
      have hid : w.id = i := Store.get_id s i w hg
      simp only [update_workout, hg, List.map_map]
      apply List.map_congr_left
      intro r _
      by_cases hri : r.id = i
      · simp [Function.comp, hri, hid]
      · simp [Function.comp, hri]

/-- `update_workout` keeps the auto-increment counter. -/
lemma update_nextId (i : Nat) (u : WorkoutUpdate) (s : Store) :
    ((update_workout i u s).2).nextId = s.nextId := by
  cases hg : s.get i with
  | none => simp [update_workout, hg]
  | some w => simp [update_workout, hg]

/-- C7: the id invariants. Update never changes any stored id (its
payload carries no id key), and each of create, update and delete
preserves well-formedness — in particular ids stay pairwise distinct,
so no two records ever share an id. -/
theorem id_invariants (s : Store) (h : s.WF) (w : WorkoutCreate) (i : Nat)
    (u : WorkoutUpdate) :
    ((update_workout i u s).2).rows.map Workout.id = s.rows.map Workout.id ∧
    ((create_workout w s).2).WF ∧
    ((update_workout i u s).2).WF ∧
    ((delete_workout i s).2).WF := by
  refine ⟨update_rows_map_id i u s, ?_, ?_, ?_⟩
  · constructor
    · intro r hr
      rcases List.mem_append.mp hr with hr | hr
      · exact h.pos r hr
      · rw [List.mem_singleton.mp hr]
        exact Nat.lt_of_lt_of_le Nat.zero_lt_one h.one_le
    · intro r hr
      rcases List.mem_append.mp hr with hr | hr
      · exact Nat.lt_succ_of_lt (h.lt_next r hr)
      · rw [List.mem_singleton.mp hr]
        exact Nat.lt_succ_self _
    · refine List.pairwise_append.mpr ⟨h.nodup, List.pairwise_singleton _ _, ?_⟩
      intro a ha b hb
      rw [List.mem_singleton.mp hb]
      exact Nat.ne_of_lt (h.lt_next a ha)
    · exact Nat.le_succ_of_le h.one_le
  · exact wf_of_map_id_eq s _ h (update_nextId i u s) (update_rows_map_id i u s)
  · cases hg : s.get i with
    | none => simpa [delete_workout, hg] using h
    | some w' =>
        constructor
        · intro r hr
          simp only [delete_workout, hg] at hr
          exact h.pos r (List.mem_of_mem_filter hr)
        · intro r hr
          simp only [delete_workout, hg] at hr ⊢
          exact h.lt_next r (List.mem_of_mem_filter hr)
        · simp only [delete_workout, hg]
          exact h.nodup.sublist (List.filter_sublist _)
        · simpa [delete_workout, hg] using h.one_le

/-- Witness for C7 on a concrete well-formed one-row store. -/
theorem id_invariants_witness :
    ((update_workout 1 ⟨"Squat", 100, 8⟩ sampleStore).2).rows.map Workout.id =
      sampleStore.rows.map Workout.id ∧
    ((create_workout ⟨"Row", 60, 10⟩ sampleStore).2).WF ∧
    ((update_workout 1 ⟨"Squat", 100, 8⟩ sampleStore).2).WF ∧
    ((delete_workout 1 sampleStore).2).WF :=
  id_invariants sampleStore
    ⟨by decide, by decide, by decide, by decide⟩
    ⟨"Row", 60, 10⟩ 1 ⟨"Squat", 100, 8⟩

/-- The validation pipeline written as explicit matches. -/
lemma parseWorkoutBase_eq (body : Body) :
    parseWorkoutBase body =
      match parseField String coerceStr body "title" with
      | .error e => .error e
      | .ok title =>
          match parseField Int coerceInt body "load" with
          | .error e => .error e
          | .ok load =>
              match parseField Int coerceInt body "reps" with
              | .error e => .error e
              | .ok reps => .ok ⟨title, load, reps⟩ := by
  unfold parseWorkoutBase
  cases parseField String coerceStr body "title" <;>
    cases parseField Int coerceInt body "load" <;>
      cases parseField Int coerceInt body "reps" <;> rfl

/-- A missing or type-mismatched field makes its `parseField` fail. -/
lemma parseField_fails {α : Type} (coe : JValue → Option α) (body : Body)
    (field : String)
    (h : body.lookup field = none ∨
         ∃ v, body.lookup field = some v ∧ coe v = none) :
    ∃ e, parseField α coe body field = .error e := by
  rcases h with h | ⟨v, h1, h2⟩
  · exact ⟨.missing field, by simp [parseField, h]⟩
  · exact ⟨.typeMismatch field, by simp [parseField, h1, h2]⟩

/-- When any of the three fields fails, the whole validation fails. -/
lemma parseWorkoutBase_fails (body : Body)
    (h : (body.lookup "title" = none ∨
            ∃ v, body.lookup "title" = some v ∧ coerceStr v = none) ∨
         (body.lookup "load" = none ∨
            ∃ v, body.lookup "load" = some v ∧ coerceInt v = none) ∨
         (body.lookup "reps" = none ∨
            ∃ v, body.lookup "reps" = some v ∧ coerceInt v = none)) :
    ∃ e, parseWorkoutBase body = .error e := by
  rw [parseWorkoutBase_eq]
  rcases h with h | h | h
  · rcases parseField_fails coerceStr body "title" h with ⟨e, he⟩
    exact ⟨e, by rw [he]⟩
  · cases hT : parseField String coerceStr body "title" with
    | error e => exact ⟨e, rfl⟩
    | ok t =>
        rcases parseField_fails coerceInt body "load" h with ⟨e, he⟩
        exact ⟨e, by rw [he]⟩
  · cases hT : parseField String coerceStr body "title" with
    | error e => exact ⟨e, rfl⟩
    | ok t =>
        cases hL : parseField Int coerceInt body "load" with
        | error e => exact ⟨e, rfl⟩
        | ok l =>
            rcases parseField_fails coerceInt body "reps" h with ⟨e, he⟩
            exact ⟨e, by rw [he]⟩

/-- C8: a create or update body with a missing field or a
type-mismatched field fails validation, the failure surfaces as a
`ValidationError` (never as a handler result), and the store is left
exactly as it was — no record is persisted or modified. -/
theorem validation_before_storage (body : Body) (s : Store) (i : Nat)
    (h : (body.lookup "title" = none ∨
            ∃ v, body.lookup "title" = some v ∧ coerceStr v = none) ∨
         (body.lookup "load" = none ∨
            ∃ v, body.lookup "load" = some v ∧ coerceInt v = none) ∨
         (body.lookup "reps" = none ∨
            ∃ v, body.lookup "reps" = some v ∧ coerceInt v = none)) :
    (∃ e, parseWorkoutBase body = .error e) ∧
    (∃ e, (create_workout_raw body s).1 = .error (.validation e)) ∧
    (create_workout_raw body s).2 = s ∧
    (∃ e, (update_workout_raw i body s).1 = .error (.validation e)) ∧
    (update_workout_raw i body s).2 = s := by
  rcases parseWorkoutBase_fails body h with ⟨e, he⟩
  refine ⟨⟨e, he⟩, ⟨e, ?_⟩, ?_, ⟨e, ?_⟩, ?_⟩ <;>
    simp [create_workout_raw, update_workout_raw, he]

/-- A create body whose `load` field is absent. -/
def badBody : Body := [("title", .str "Bench"), ("reps", .int 5)]

/-- Witness for C8: the spec's example of a missing `load` field. -/
theorem validation_before_storage_witness :
    (∃ e, parseWorkoutBase badBody = .error e) ∧
    (∃ e, (create_workout_raw badBody Store.empty).1 = .error (.validation e)) ∧
    (create_workout_raw badBody Store.empty).2 = Store.empty ∧
    (∃ e, (update_workout_raw 1 badBody Store.empty).1 = .error (.validation e)) ∧
    (update_workout_raw 1 badBody Store.empty).2 = Store.empty :=
  validation_before_storage badBody Store.empty 1
    (Or.inr (Or.inl (Or.inl (by decide))))

/-- C9: each operation touches at most the record with the addressed
id — create keeps every stored row, update and delete leave every row
with a different id exactly in place — and a NotFound failure of
update or delete leaves the entire store unchanged. -/
theorem frame_effects (s : Store) (i : Nat) (u : WorkoutUpdate) (w : WorkoutCreate) :
    (∀ r ∈ s.rows, r ∈ ((create_workout w s).2).rows) ∧
    (∀ r : Workout, r.id ≠ i →
       (r ∈ ((update_workout i u s).2).rows ↔ r ∈ s.rows)) ∧
    (∀ r : Workout, r.id ≠ i →
       (r ∈ ((delete_workout i s).2).rows ↔ r ∈ s.rows)) ∧
    (s.get i = none →
       (update_workout i u s).2 = s ∧ (delete_workout i s).2 = s) := by
  refine ⟨?_, ?_, ?_, ?_⟩
  · intro r hr
    simp [create_workout]
    exact Or.inl hr
  · intro r hri
    cases hg : s.get i with
    | none => simp [update_workout, hg]
    | some w' =>
        have hid : w'.id = i := Store.get_id s i w' hg
        simp only [update_workout, hg]
        constructor
        · intro hr
          rcases List.mem_map.mp hr with ⟨r0, hr0, hfr⟩
          by_cases h0 : r0.id = i
          · rw [if_pos h0] at hfr
            exact absurd (by rw [← hfr]; simp [hid]) hri
          · rw [if_neg h0] at hfr
            exact hfr ▸ hr0
        · intro hr
          have hm := List.mem_map_of_mem
            (fun r => if r.id = i then w'.applyUpdate u else r) hr
          simpa [if_neg hri] using hm
  · intro r hri
    cases hg : s.get i with
    | none => simp [delete_workout, hg]
    | some w' =>
        simp only [delete_workout, hg]
        simp [List.mem_filter, hri]
  · intro hg
    constructor <;> simp [update_workout, delete_workout, hg]

/-- Witness for C9: id 1 is untouched by operations addressing id 2,
and NotFound leaves the one-row store whole. -/
theorem frame_effects_witness :
    ((⟨1, "Bench", 80, 5⟩ : Workout) ∈
        ((update_workout 2 ⟨"Squat", 100, 8⟩ sampleStore).2).rows ↔
      (⟨1, "Bench", 80, 5⟩ : Workout) ∈ sampleStore.rows) ∧
    ((⟨1, "Bench", 80, 5⟩ : Workout) ∈ ((delete_workout 2 sampleStore).2).rows ↔
      (⟨1, "Bench", 80, 5⟩ : Workout) ∈ sampleStore.rows) ∧
    ((update_workout 2 ⟨"Squat", 100, 8⟩ sampleStore).2 = sampleStore ∧
     (delete_workout 2 sampleStore).2 = sampleStore) :=
  ⟨(frame_effects sampleStore 2 ⟨"Squat", 100, 8⟩ ⟨"Row", 60, 10⟩).2.1 _ (by decide),
   (frame_effects sampleStore 2 ⟨"Squat", 100, 8⟩ ⟨"Row", 60, 10⟩).2.2.1 _ (by decide),
   (frame_effects sampleStore 2 ⟨"Squat", 100, 8⟩ ⟨"Row", 60, 10⟩).2.2.2 rfl⟩

/-- The value `update_workout` takes on a store whose lookup is known. -/
lemma update_workout_eq_of_get (i : Nat) (u : WorkoutUpdate) (s : Store)
    (w : Workout) (h : s.get i = some w) :
    update_workout i u s =
      (.ok (200, (w.applyUpdate u).toOut),
       ⟨s.rows.map (fun r => if r.id = i then w.applyUpdate u else r),
        s.nextId⟩) := by
  simp [update_workout, h]

/-- Lookup in the explicitly rewritten row list finds the overwritten
row. -/
lemma get_map_update (l : List Workout) (n i : Nat) (u : WorkoutUpdate)
    (w : Workout) (h : l.find? (fun r => r.id == i) = some w) :
    (Store.mk (l.map (fun r => if r.id = i then w.applyUpdate u else r)) n).get i =
      some (w.applyUpdate u) := by
  have hid : w.id = i := by simpa using List.find?_some h
  have hpres : ∀ r : Workout,
      ((if r.id = i then w.applyUpdate u else r).id == i) = (r.id == i) := by
    intro r
    by_cases hr : r.id = i
    · simp [hr, hid]
    · simp [hr]
  show (l.map (fun r => if r.id = i then w.applyUpdate u else r)).find?
      (fun r => r.id == i) = _
  rw [find?_map_pres l _ _ hpres, h]
  simp [hid]

/-- C10: update is idempotent — running the same update twice on an
existing id yields the same response and the same store as running it
once. -/
theorem update_idempotent (i : Nat) (u : WorkoutUpdate) (s : Store) (w : Workout)
    (h : s.get i = some w) :
    update_workout i u ((update_workout i u s).2) = update_workout i u s := by
  have hid : w.id = i := Store.get_id s i w h
  have hfind : s.rows.find? (fun r => r.id == i) = some w := h
  rw [update_workout_eq_of_get i u s w h]
  show update_workout i u
      ⟨s.rows.map (fun r => if r.id = i then w.applyUpdate u else r), s.nextId⟩ =
    (.ok (200, (w.applyUpdate u).toOut),
     ⟨s.rows.map (fun r => if r.id = i then w.applyUpdate u else r), s.nextId⟩)
  rw [update_workout_eq_of_get i u _ (w.applyUpdate u)
    (get_map_update s.rows s.nextId i u w hfind)]
  have hmap : (s.rows.map (fun r => if r.id = i then w.applyUpdate u else r)).map
        (fun r => if r.id = i then (w.applyUpdate u).applyUpdate u else r) =
      s.rows.map (fun r => if r.id = i then w.applyUpdate u else r) := by
    rw [List.map_map]
    apply List.map_congr_left
    intro r _
    by_cases hri : r.id = i
    · simp [Function.comp, hri, hid, Workout.applyUpdate]
    · simp [Function.comp, hri]
  rw [hmap]
  rfl

/-- Witness for C10 on the one-row store. -/
theorem update_idempotent_witness :
    update_workout 1 ⟨"Squat", 100, 8⟩
        ((update_workout 1 ⟨"Squat", 100, 8⟩ sampleStore).2) =
      update_workout 1 ⟨"Squat", 100, 8⟩ sampleStore :=
  update_idempotent 1 ⟨"Squat", 100, 8⟩ sampleStore ⟨1, "Bench", 80, 5⟩ rfl

end WorkoutApi
